import Mathlib

/-!
Verification of `sys-utils/wdctl.c` (wdctl(8) — show hardware watchdog status).

The definitions below are a shallow embedding of the source file: the static
flag and column tables, the flag-table renderer (`show_flags`), the device
session (`read_watchdog`, with the operating system modelled as an explicit
environment of system-call outcomes), the timeout printer (`show_timeouts`)
and the post-getopt control flow of `main` (`main_run`).  Machine integers
(`uint32_t` bitmasks) are modelled as `Nat`; `~x` on a 32-bit value is
`0xFFFFFFFF ^^^ x`.
-/

set_option maxRecDepth 8000

namespace Wdctl

/-- Lowercase an ASCII letter, as C `tolower` does on the ASCII range. -/
def lowerChar (c : Char) : Char :=
  if 'A' ≤ c ∧ c ≤ 'Z' then Char.ofNat (c.toNat + 32) else c

/-- Case-insensitive name equality, mirroring the source's
`!strncasecmp(name, cn, namesz) && !*(cn + namesz)`: the whole token (of
length `namesz`) must equal the whole table entry, ignoring ASCII case. -/
def eq_ignorecase (a b : String) : Bool :=
  a.toList.map lowerChar == b.toList.map lowerChar

/-- Digit character for bases up to 16, lowercase letters, as printf `%x` uses. -/
def digitChar (n : Nat) : Char :=
  if n < 10 then Char.ofNat (48 + n) else Char.ofNat (87 + n)

/-- Digits of `n` in base `base`, most significant first; `fuel` bounds recursion. -/
def natDigitsAux (base : Nat) : Nat → Nat → List Char
  | 0, _ => []
  | fuel + 1, n => if n = 0 then [] else natDigitsAux base fuel (n / base) ++ [digitChar (n % base)]

/-- printf `%x`-style lowercase hexadecimal rendering (no `0x` prefix, as in C). -/
def hexStr (n : Nat) : String :=
  if n = 0 then "0" else String.mk (natDigitsAux 16 (n + 1) n)

/-- Decimal rendering of a natural number. -/
def natStr (n : Nat) : String :=
  if n = 0 then "0" else String.mk (natDigitsAux 10 (n + 1) n)

/-- printf `%i`-style decimal rendering of a signed value. -/
def intStr (v : Int) : String :=
  if v < 0 then "-" ++ natStr v.natAbs else natStr v.natAbs

/-- printf `%-15s`-style left justification to width `w`. -/
def pad_right (s : String) (w : Nat) : String :=
  s ++ String.mk (List.replicate (w - s.length) ' ')

/-- printf `%2i`-style right justification to width 2. -/
def fmt2i (v : Int) : String :=
  String.mk (List.replicate (2 - (intStr v).length) ' ') ++ intStr v

/-- Does `s` contain `pat` as a contiguous substring? -/
def strContains (s pat : String) : Bool :=
  s.toList.tails.any (fun t => pat.toList.isPrefixOf t)

/-! ## Static flag table (`struct wdflag wdflags[]`) -/

/-- One entry of the static flag table (`struct wdflag`). -/
structure wdflag where
  flag : Nat
  name : String
  description : String
deriving DecidableEq

/-- `WDIOF_*` bits from `<linux/watchdog.h>` (fixed kernel ABI constants). -/
def WDIOF_OVERHEAT : Nat := 0x0001
def WDIOF_FANFAULT : Nat := 0x0002
def WDIOF_EXTERN1 : Nat := 0x0004
def WDIOF_EXTERN2 : Nat := 0x0008
def WDIOF_POWERUNDER : Nat := 0x0010
def WDIOF_CARDRESET : Nat := 0x0020
def WDIOF_POWEROVER : Nat := 0x0040
def WDIOF_SETTIMEOUT : Nat := 0x0080
def WDIOF_MAGICCLOSE : Nat := 0x0100
def WDIOF_PRETIMEOUT : Nat := 0x0200
def WDIOF_KEEPALIVEPING : Nat := 0x8000

/-- The static `wdflags` table, in source order (11 entries). -/
def wdflags : List wdflag :=
  [ ⟨WDIOF_CARDRESET,     "CARDRESET",     "Card previously reset the CPU"⟩,
    ⟨WDIOF_EXTERN1,       "EXTERN1",       "External relay 1"⟩,
    ⟨WDIOF_EXTERN2,       "EXTERN2",       "External relay 2"⟩,
    ⟨WDIOF_FANFAULT,      "FANFAULT",      "Fan failed"⟩,
    ⟨WDIOF_KEEPALIVEPING, "KEEPALIVEPING", "Keep alive ping reply"⟩,
    ⟨WDIOF_MAGICCLOSE,    "MAGICCLOSE",    "Supports magic close char"⟩,
    ⟨WDIOF_OVERHEAT,      "OVERHEAT",      "Reset due to CPU overheat"⟩,
    ⟨WDIOF_POWEROVER,     "POWEROVER",     "Power over voltage"⟩,
    ⟨WDIOF_POWERUNDER,    "POWERUNDER",    "Power bad/power fault"⟩,
    ⟨WDIOF_PRETIMEOUT,    "PRETIMEOUT",    "Pretimeout (in seconds)"⟩,
    ⟨WDIOF_SETTIMEOUT,    "SETTIMEOUT",    "Set timeout (in seconds)"⟩ ]

/-- Bitwise OR of all known flag bits. -/
def knownFlagsMask : Nat := wdflags.foldl (fun a f => a ||| f.flag) 0

/-! ## Static column table (`struct colinfo infos[]`) -/

/-- One entry of the static column table; the width hint and `TT_FL_*`
formatting flags belong to the external `tt` table library and are omitted. -/
structure colinfo where
  name : String
  help : String
deriving DecidableEq

def COL_FLAG : Nat := 0
def COL_DESC : Nat := 1
def COL_STATUS : Nat := 2
def COL_BSTATUS : Nat := 3

/-- The static `infos` column table (4 entries, indexed by `COL_*`). -/
def infos : List colinfo :=
  [ ⟨"FLAG",        "flag name"⟩,
    ⟨"DESCRIPTION", "flag description"⟩,
    ⟨"STATUS",      "flag status"⟩,
    ⟨"BOOT-STATUS", "flag boot status"⟩ ]

/-- `NCOLS = ARRAY_SIZE(infos)`. -/
def NCOLS : Nat := infos.length

/-! ## Data model (`struct watchdog_info`, `struct wdinfo`) -/

/-- `struct watchdog_info` as filled in by the `WDIOC_GETSUPPORT` ioctl. -/
structure watchdog_info where
  options : Nat
  firmware_version : Nat
  identity : String
deriving DecidableEq

/-- `struct wdinfo`: the status record built by the device session. -/
structure wdinfo where
  device : String
  timeout : Int
  timeleft : Int
  pretimeout : Int
  status : Nat
  bstatus : Nat
  ident : watchdog_info
  has_timeout : Bool
  has_timeleft : Bool
  has_pretimeout : Bool
deriving DecidableEq

/-- `struct wdinfo wd = { .device = ... }`: all other fields zero-initialized. -/
def wdinfo_init (dev : String) : wdinfo :=
  { device := dev, timeout := 0, timeleft := 0, pretimeout := 0,
    status := 0, bstatus := 0,
    ident := { options := 0, firmware_version := 0, identity := "" },
    has_timeout := false, has_timeleft := false, has_pretimeout := false }

/-! ## Name lookups (`name2bit`, `column2id`) -/

/-- `name2bit`: case-insensitive linear scan of the static flag table;
`none` models the `-1` error return (after the "unknown flag" warning). -/
def name2bit (name : String) : Option Nat :=
  (wdflags.find? (fun f => eq_ignorecase name f.name)).map (fun f => f.flag)

/-- `column2id`: case-insensitive linear scan of the column table;
`none` models the `-1` error return (after the "unknown column" warning). -/
def column2id (name : String) : Option Nat :=
  let i := infos.findIdx (fun ci => eq_ignorecase name ci.name)
  if i < NCOLS then some i else none

/-! ## Flag table renderer (`add_flag_line`, `show_flags`) -/

/-- Complement of a `uint32_t` value (`~x` at 32 bits). -/
def u32compl (x : Nat) : Nat := 0xFFFFFFFF ^^^ x

/-- `add_flag_line`: the cell strings of one table row, one per selected
column id, in selected order. -/
def add_flag_line (wd : wdinfo) (cols : List Nat) (fl : wdflag) : List String :=
  cols.map (fun id =>
    if id = COL_FLAG then fl.name
    else if id = COL_DESC then fl.description
    else if id = COL_STATUS then (if wd.status &&& fl.flag ≠ 0 then "1" else "0")
    else if id = COL_BSTATUS then (if wd.bstatus &&& fl.flag ≠ 0 then "1" else "0")
    else "")

/-- The fill-in loop of `show_flags`: walks the static flag table, emitting a
row when the (residual) supported bitmask has the flag's bit and the filter
does not exclude it, and clearing each visited flag's bit from the residual.
Returns the rows and the final residual bitmask. -/
def show_flags_loop (wd : wdinfo) (cols : List Nat) (wanted : Nat) :
    List wdflag → Nat → List (List String) × Nat
  | [], flags => ([], flags)
  | f :: fs, flags =>
    let rest := show_flags_loop wd cols wanted fs (flags &&& u32compl f.flag)
    if wanted ≠ 0 ∧ wanted &&& f.flag = 0 then rest
    else if flags &&& f.flag ≠ 0 then (add_flag_line wd cols f :: rest.1, rest.2)
    else rest

/-- Text of the `warnx("%s: unknown flags 0x%x\n", ...)` residual warning. -/
def unknown_flags_warning (dev : String) (residual : Nat) : String :=
  dev ++ ": unknown flags 0x" ++ hexStr residual ++ "\n"

/-- `show_flags`: the rendered rows, and the residual-unknown-flags warning
when bits remain after all known flags are consumed.  Table creation and
column definition belong to the external `tt` library and are assumed to
succeed (the spec puts tabular rendering out of scope). -/
def show_flags (wd : wdinfo) (cols : List Nat) (wanted : Nat) :
    List (List String) × Option String :=
  let r := show_flags_loop wd cols wanted wdflags wd.ident.options
  (r.1, if r.2 ≠ 0 then some (unknown_flags_warning wd.device r.2) else none)

/-! ## Device session (`read_watchdog`) -/

/-- Outcome of `open(wd->device, O_WRONLY|O_CLOEXEC)`. -/
inductive OpenResult
  | opened
  | ebusy
  | failed
deriving DecidableEq

/-- Outcome of one `write(fd, &v, 1)` attempt. -/
inductive WriteOutcome
  | success
  | eintr
  | failed
deriving DecidableEq

/-- System calls issued during the device session, in order. -/
inductive Syscall
  | openCall
  | ioctlSupport
  | ioctlStatus
  | ioctlBootStatus
  | ioctlTimeout
  | ioctlPretimeout
  | ioctlTimeleft
  | writeCall
  | closeCall
deriving DecidableEq

/-- The device / operating-system environment the session runs against: the
result of the open and of each ioctl query (`none` = the ioctl failed), and
the outcome of each successive disarm-write attempt. -/
structure DevEnv where
  openResult : OpenResult
  getsupport : Option watchdog_info
  getstatus : Option Nat
  getbootstatus : Option Nat
  gettimeout : Option Int
  getpretimeout : Option Int
  gettimeleft : Option Int
  writeOutcomes : List WriteOutcome
deriving DecidableEq

def busy_message (dev : String) : String :=
  dev ++ ": watchdog already in use, terminating."

def open_fail_message (dev : String) : String :=
  dev ++ ": failed to open watchdog device"

def getsupport_fail_message (dev : String) : String :=
  dev ++ ": failed to get information about watchdog"

def disarm_fail_message (dev : String) : String :=
  dev ++ ": failed to disarm watchdog"

/-- Result of the query phase (the `WDIOC_GETSUPPORT` branch of
`read_watchdog`). -/
structure QueryResult where
  wd : wdinfo
  syscalls : List Syscall
  warnings : List String
deriving DecidableEq

/-- The ioctl phase of `read_watchdog`: if `WDIOC_GETSUPPORT` fails, warn and
leave the record untouched; otherwise fill in status/boot-status (return
values ignored) and attempt each of the three timing queries independently,
setting the corresponding `has_*` bit only on success. -/
def query_phase (wd : wdinfo) (env : DevEnv) : QueryResult :=
  match env.getsupport with
  | none =>
    ⟨wd, [Syscall.ioctlSupport], [getsupport_fail_message wd.device]⟩
  | some ident =>
    ⟨{ wd with
        ident := ident,
        status := env.getstatus.getD wd.status,
        bstatus := env.getbootstatus.getD wd.bstatus,
        timeout := env.gettimeout.getD wd.timeout,
        has_timeout := env.gettimeout.isSome || wd.has_timeout,
        pretimeout := env.getpretimeout.getD wd.pretimeout,
        has_pretimeout := env.getpretimeout.isSome || wd.has_pretimeout,
        timeleft := env.gettimeleft.getD wd.timeleft,
        has_timeleft := env.gettimeleft.isSome || wd.has_timeleft },
     [Syscall.ioctlSupport, Syscall.ioctlStatus, Syscall.ioctlBootStatus,
      Syscall.ioctlTimeout, Syscall.ioctlPretimeout, Syscall.ioctlTimeleft],
     []⟩

/-- Result of the magic-close write loop. -/
structure DisarmResult where
  writes : List WriteOutcome
  warned : Bool
  finished : Bool
deriving DecidableEq

/-- The `for (;;)` disarm loop: break on a successful write; warn and break
on a non-`EINTR` error; retry on `EINTR`.  An exhausted outcome list means
every attempt so far was interrupted and the loop is still running
(`finished = false`). -/
def disarm_loop : List WriteOutcome → DisarmResult
  | [] => ⟨[], false, false⟩
  | WriteOutcome.success :: _ => ⟨[WriteOutcome.success], false, true⟩
  | WriteOutcome.failed :: _ => ⟨[WriteOutcome.failed], true, true⟩
  | WriteOutcome.eintr :: rest =>
    let r := disarm_loop rest
    ⟨WriteOutcome.eintr :: r.writes, r.warned, r.finished⟩

/-- Everything observable about one device session. `result = some wd` models
the `return 0` path; `fatalMsg = some m` models the `errx`/`err EXIT_FAILURE`
terminations at open time.  (Signal-mask save/restore is not modelled; it has
no observable effect in this embedding.) -/
structure Session where
  result : Option wdinfo
  fatalMsg : Option String
  syscalls : List Syscall
  warnings : List String
  writes : List WriteOutcome
  disarmWarning : Bool
  closed : Bool
deriving DecidableEq

/-- `read_watchdog`: open the device (terminating the process on failure,
with a distinct message for `EBUSY`), run the query phase, always run the
disarm-write loop, then close. -/
def read_watchdog (wd : wdinfo) (env : DevEnv) : Session :=
  match env.openResult with
  | OpenResult.ebusy =>
    ⟨none, some (busy_message wd.device), [Syscall.openCall], [], [], false, false⟩
  | OpenResult.failed =>
    ⟨none, some (open_fail_message wd.device), [Syscall.openCall], [], [], false, false⟩
  | OpenResult.opened =>
    let q := query_phase wd env
    let d := disarm_loop env.writeOutcomes
    ⟨if d.finished then some q.wd else none,
     none,
     ([Syscall.openCall] ++ q.syscalls ++ d.writes.map (fun _ => Syscall.writeCall)) ++
       (if d.finished then [Syscall.closeCall] else []),
     q.warnings ++ (if d.warned then [disarm_fail_message wd.device] else []),
     d.writes,
     d.warned,
     d.finished⟩

/-! ## Timeout and identity rendering (`show_timeouts`, identity printf) -/

/-- One `printf("%-15s%2i seconds\n", label, value)` line. -/
def timeout_line (label : String) (v : Int) : String :=
  pad_right label 15 ++ fmt2i v ++ " seconds\n"

/-- `show_timeouts`: one line per timing value whose presence bit is set. -/
def show_timeouts (wd : wdinfo) : List String :=
  (if wd.has_timeout then [timeout_line "Timeout:" wd.timeout] else []) ++
  (if wd.has_pretimeout then [timeout_line "Pre-timeout:" wd.pretimeout] else []) ++
  (if wd.has_timeleft then [timeout_line "Timeleft:" wd.timeleft] else [])

/-- The `printf("%-15s%s [version %x]\n", ...)` identity line: the firmware
version is rendered by `%x`, i.e. bare lowercase hex with no `0x` prefix. -/
def identity_line (id : String) (fw : Nat) : String :=
  pad_right "Identity:" 15 ++ id ++ " [version " ++ hexStr fw ++ "]\n"

/-! ## Option-list parsing helpers from `lib/strutils.c`

`string_to_idarray` and `string_to_bitmask` are declared in `strutils.h` but
their implementation is not part of the sources under verification, so they
are modelled from the spec.  Both are modelled on the already-comma-split
token list (the splitting itself is generic CLI plumbing). -/

/-- Modelled from the spec: the accumulator loop of `string_to_idarray`
(implementation not in the sources).  Per the spec, an unknown column name is
an error, duplicates are "rejected at parse time, not silently deduped", and
at most `arysz` entries fit. -/
def string_to_idarray_go (arysz : Nat) : List String → List Nat → Option (List Nat)
  | [], acc => some acc
  | n :: rest, acc =>
    match column2id n with
    | none => none
    | some id =>
      if id ∈ acc ∨ arysz ≤ acc.length then none
      else string_to_idarray_go arysz rest (acc ++ [id])

/-- Modelled from the spec: `string_to_idarray` (declared in `strutils.h`,
implementation not in the sources).  Parses a non-empty column-name list into
id indices: "Selected output columns must be a non-empty ordered subset of
the 4 known columns, each appearing at most once (duplicates rejected at
parse time, not silently deduped)"; unknown names are errors. -/
def string_to_idarray (names : List String) (arysz : Nat) : Option (List Nat) :=
  if names.isEmpty then none else string_to_idarray_go arysz names []

/-- Modelled from the spec: `string_to_bitmask` (declared in `strutils.h`,
implementation not in the sources).  ORs together the bit of each listed flag
name; an unknown name is an error. -/
def string_to_bitmask (names : List String) : Option Nat :=
  names.foldl
    (fun acc n =>
      match acc, name2bit n with
      | some m, some b => some (m ||| b)
      | _, _ => none)
    (some 0)

/-! ## `main` control flow after getopt -/

/-- The post-getopt option state of `main`.  `flagsArg`/`outputArg` carry the
comma-split argument of `-f`/`-o` when given; `positionals` is
`optind < argc`. -/
structure Args where
  device : String
  flagsArg : Option (List String)
  outputArg : Option (List String)
  noflags : Bool
  noident : Bool
  notimeouts : Bool
  positionals : Bool
deriving DecidableEq

/-- Items printed to stdout by `main`, in order. -/
inductive OutItem
  | identLine (s : String)
  | timeoutLine (s : String)
  | blankLine
  | flagTable (rows : List (List String))
deriving DecidableEq

/-- How the process run ends. -/
inductive MainOutcome
  | parseFailure
  | usageError (msg : String)
  | fatal (msg : String)
  | diverged
  | finished (output : List OutItem) (warnings : List String)
deriving DecidableEq

/-- Process exit code per outcome (`none` when the run never terminates). -/
def exit_code : MainOutcome → Option Nat
  | MainOutcome.parseFailure => some 1
  | MainOutcome.usageError _ => some 1
  | MainOutcome.fatal _ => some 1
  | MainOutcome.diverged => none
  | MainOutcome.finished _ _ => some 0

/-- Result of a run, also recording whether the device open was ever reached. -/
structure MainResult where
  outcome : MainOutcome
  openAttempted : Bool
deriving DecidableEq

/-- `-o` handling: absent means the default columns will be filled in later. -/
def parse_output : Option (List String) → Option (List Nat)
  | none => some []
  | some ns => string_to_idarray ns NCOLS

/-- `-f` handling: absent leaves `wanted = 0` (no filter). -/
def parse_flags : Option (List String) → Option Nat
  | none => some 0
  | some ns => string_to_bitmask ns

/-- The default column set installed when `-o` was not given. -/
def effective_cols (cols0 : List Nat) : List Nat :=
  if cols0.isEmpty then [COL_FLAG, COL_DESC, COL_STATUS, COL_BSTATUS] else cols0

/-- The stdout items printed once the session returned: identity line unless
suppressed, timeout lines unless suppressed, the blank separator when
`!noflags && !(noident && notimeouts)`, and the flag table unless
suppressed. -/
def render_output (args : Args) (wd : wdinfo) (cols : List Nat) (wanted : Nat) :
    List OutItem :=
  (if !args.noident then
      [OutItem.identLine (identity_line wd.ident.identity wd.ident.firmware_version)]
    else []) ++
  (if !args.notimeouts then (show_timeouts wd).map OutItem.timeoutLine else []) ++
  (if !args.noflags && !(args.noident && args.notimeouts) then [OutItem.blankLine] else []) ++
  (if !args.noflags then [OutItem.flagTable (show_flags wd cols wanted).1] else [])

/-- The body of `main` after option parsing: `-o` and `-f` parse failures
return `EXIT_FAILURE`; `--flags` with `--noflags` is a usage error; stray
positional arguments are a usage error; only then is the device opened. -/
def main_run (args : Args) (env : DevEnv) : MainResult :=
  match parse_output args.outputArg with
  | none => ⟨MainOutcome.parseFailure, false⟩
  | some cols0 =>
    match parse_flags args.flagsArg with
    | none => ⟨MainOutcome.parseFailure, false⟩
    | some wanted =>
      if wanted ≠ 0 ∧ args.noflags then
        ⟨MainOutcome.usageError "--flags and --noflags are mutually exclusive", false⟩
      else if args.positionals then
        ⟨MainOutcome.usageError "usage", false⟩
      else
        let s := read_watchdog (wdinfo_init args.device) env
        match s.result with
        | none =>
          match s.fatalMsg with
          | some msg => ⟨MainOutcome.fatal msg, true⟩
          | none => ⟨MainOutcome.diverged, true⟩
        | some wd =>
          ⟨MainOutcome.finished
            (render_output args wd (effective_cols cols0) wanted)
            (s.warnings ++
              (if !args.noflags then (show_flags wd (effective_cols cols0) wanted).2.toList
               else [])),
           true⟩

/-! ## Lemmas about the flag-table loop -/

/-- Clearing one single-bit flag from the residual does not disturb the bit
of a flag whose bit survives the clearing mask. -/
lemma land_clear_preserve {x c g : Nat} (h : c &&& g = g) : (x &&& c) &&& g = x &&& g := by
  rw [Nat.land_assoc, h]

/-- The rows produced by the fill-in loop: one row, in static-table order,
for every flag whose bit is set in `opts` and not excluded by the filter;
the residual clearing never hides a later flag's bit because the flag bits
are pairwise disjoint. -/
lemma show_flags_loop_fst (wd : wdinfo) (cols : List Nat) (wanted : Nat) :
    ∀ (fs : List wdflag) (flags opts : Nat),
      (∀ f ∈ fs, flags &&& f.flag = opts &&& f.flag) →
      List.Pairwise (fun a b => u32compl a.flag &&& b.flag = b.flag) fs →
      (show_flags_loop wd cols wanted fs flags).1 =
        (fs.filter (fun f =>
          decide ((wanted = 0 ∨ wanted &&& f.flag ≠ 0) ∧ opts &&& f.flag ≠ 0))).map
          (add_flag_line wd cols) := by
  intro fs
  induction fs with
  | nil => intro flags opts _ _; rfl
  | cons f fs ih =>
    intro flags opts hinv hpw
    have hf : flags &&& f.flag = opts &&& f.flag := hinv f (List.mem_cons_self f fs)
    obtain ⟨hhead, htail⟩ := List.pairwise_cons.mp hpw
    have hinv2 : ∀ g ∈ fs, (flags &&& u32compl f.flag) &&& g.flag = opts &&& g.flag := by
      intro g hg
      rw [land_clear_preserve (hhead g hg), hinv g (List.mem_cons_of_mem f hg)]
    have hrec := ih (flags &&& u32compl f.flag) opts hinv2 htail
    by_cases hw : wanted ≠ 0 ∧ wanted &&& f.flag = 0
    · have hpred : ¬((wanted = 0 ∨ wanted &&& f.flag ≠ 0) ∧ opts &&& f.flag ≠ 0) := by
        rintro ⟨h1 | h1, _⟩
        · exact hw.1 h1
        · exact h1 hw.2
      simp [show_flags_loop, hw, hrec, List.filter_cons, hpred]
    · by_cases hb : flags &&& f.flag ≠ 0
      · have hopts : opts &&& f.flag ≠ 0 := hf ▸ hb
        have hpred : (wanted = 0 ∨ wanted &&& f.flag ≠ 0) ∧ opts &&& f.flag ≠ 0 := by
          constructor
          · by_cases h0 : wanted = 0
            · exact Or.inl h0
            · exact Or.inr (fun hz => hw ⟨h0, hz⟩)
          · exact hopts
        simp [show_flags_loop, hw, hb, hrec, List.filter_cons, hpred]
      · have hopts : ¬(opts &&& f.flag ≠ 0) := by
          rw [← hf]; exact hb
        have hpred : ¬((wanted = 0 ∨ wanted &&& f.flag ≠ 0) ∧ opts &&& f.flag ≠ 0) := by
          rintro ⟨_, h2⟩; exact hopts h2
        simp [show_flags_loop, hw, hb, hrec, List.filter_cons, hpred]

/-- The residual bitmask computed by the fill-in loop is the left fold that
clears every visited flag's bit; it does not depend on the filter or on the
rows emitted. -/
lemma show_flags_loop_snd (wd : wdinfo) (cols : List Nat) (wanted : Nat) :
    ∀ (fs : List wdflag) (flags : Nat),
      (show_flags_loop wd cols wanted fs flags).2 =
        fs.foldl (fun a f => a &&& u32compl f.flag) flags := by
  intro fs
  induction fs with
  | nil => intro flags; rfl
  | cons f fs ih =>
    intro flags
    by_cases hw : wanted ≠ 0 ∧ wanted &&& f.flag = 0
    · simp [show_flags_loop, hw, ih]
    · by_cases hb : flags &&& f.flag ≠ 0 <;> simp [show_flags_loop, hw, hb, ih]

/-- Clearing all 11 known flag bits is intersecting with the complement of
their union. -/
lemma foldl_clear_wdflags (flags : Nat) :
    wdflags.foldl (fun a f => a &&& u32compl f.flag) flags =
      flags &&& u32compl knownFlagsMask := by
  simp only [wdflags, List.foldl, Nat.land_assoc]
  congr 1

/-- The residual-unknown-flags warning of `show_flags`, characterized: it is
emitted exactly when the supported-options bitmask has bits outside the union
of the known flag bits, and it names the device and that residual. -/
lemma show_flags_snd (wd : wdinfo) (cols : List Nat) (wanted : Nat) :
    (show_flags wd cols wanted).2 =
      (if wd.ident.options &&& u32compl knownFlagsMask ≠ 0 then
        some (unknown_flags_warning wd.device (wd.ident.options &&& u32compl knownFlagsMask))
      else none) := by
  show (if (show_flags_loop wd cols wanted wdflags wd.ident.options).2 ≠ 0 then
          some (unknown_flags_warning wd.device
            (show_flags_loop wd cols wanted wdflags wd.ident.options).2)
        else none) = _
  rw [show_flags_loop_snd, foldl_clear_wdflags]

/-- C2: for every supported-options bitmask and every filter bitmask, the
rendered flag table holds exactly one row per known flag whose bit is set in
the supported-options bitmask and, when a non-empty filter was given, also in
the filter bitmask: the rows are exactly the filter of the static flag table
by that intersection condition, in static-table order, mapped through the
row builder — no duplicates, none dropped. -/
theorem show_flags_rows_exact (wd : wdinfo) (cols : List Nat) (wanted : Nat) :
    (show_flags wd cols wanted).1 =
      (wdflags.filter (fun f =>
        decide ((wanted = 0 ∨ wanted &&& f.flag ≠ 0) ∧ wd.ident.options &&& f.flag ≠ 0))).map
        (add_flag_line wd cols) :=
  show_flags_loop_fst wd cols wanted wdflags wd.ident.options wd.ident.options
    (fun _ _ => rfl) (by decide)

/-- C10: the residual unknown-flags computation is independent of the `-f`
filter (and of the selected columns), and the warning is emitted exactly when
the supported-options bitmask has bits outside the union of the 11 known flag
bits — never merely because the filter excluded a supported known flag. -/
theorem residual_warning_filter_independent (wd : wdinfo) (cols cols2 : List Nat)
    (wanted : Nat) :
    (show_flags wd cols wanted).2 = (show_flags wd cols2 0).2 ∧
    ((show_flags wd cols wanted).2 ≠ none ↔
      wd.ident.options &&& u32compl knownFlagsMask ≠ 0) := by
  by_cases h : wd.ident.options &&& u32compl knownFlagsMask ≠ 0 <;>
    simp [show_flags_snd, h]

/-! ## Lemmas about the device session -/

/-- The disarm loop, characterized when some attempt is not interrupted: it
performs exactly the interrupted prefix of attempts plus the first
non-interrupted one, warns exactly when that one is a non-`EINTR` failure,
and terminates. -/
lemma disarm_loop_spec :
    ∀ outs : List WriteOutcome, (∃ o ∈ outs, o ≠ WriteOutcome.eintr) →
      disarm_loop outs =
        ⟨outs.takeWhile (fun o => o == WriteOutcome.eintr) ++
            [(outs.dropWhile (fun o => o == WriteOutcome.eintr)).headD WriteOutcome.success],
          (outs.dropWhile (fun o => o == WriteOutcome.eintr)).headD WriteOutcome.success
            == WriteOutcome.failed,
          true⟩ := by
  intro outs h
  induction outs with
  | nil => simp at h
  | cons o rest ih =>
    cases o with
    | success => simp [disarm_loop]
    | failed => simp [disarm_loop]
    | eintr =>
      have hrest : ∃ o ∈ rest, o ≠ WriteOutcome.eintr := by
        rcases h with ⟨o, ho, hne⟩
        rcases List.mem_cons.mp ho with h1 | h1
        · exact absurd h1 hne
        · exact ⟨o, h1, hne⟩
      simp [disarm_loop, ih hrest]

/-- Appending on the left is injective for strings. -/
lemma string_append_right_inj (a : String) {s t : String} (h : a ++ s = a ++ t) :
    s = t := by
  cases a with
  | mk ad =>
    cases s with
    | mk sd =>
      cases t with
      | mk td =>
        have h2 : ad ++ sd = ad ++ td := congrArg String.data h
        exact congrArg String.mk (List.append_cancel_left h2)

/-- The busy message is distinguishable from the generic open-failure
message, for every device path. -/
lemma busy_ne_openfail (dev : String) : busy_message dev ≠ open_fail_message dev := by
  intro h
  have h2 := string_append_right_inj dev h
  exact absurd h2 (by decide)

/-- The last element of a session syscall list that ends in two fixed calls. -/
lemma getLast?_two_tail {α : Type _} (a w c : α) (A B : List α) :
    (a :: (A ++ (B ++ [w, c]))).getLast? = some c := by
  have h : a :: (A ++ (B ++ [w, c])) = (a :: (A ++ (B ++ [w]))) ++ [c] := by simp
  rw [h, List.getLast?_append_cons]
  rfl

/-- C1: after a successful open, the session runs the disarm-write loop
exactly once, regardless of whether the capability query succeeded: the
writes performed are an interrupted (`EINTR`) prefix — so the write is
retried only while it fails with an interruption — followed by exactly one
final attempt; a warning is emitted exactly when that final attempt is a
non-interruption error, the session still returns normally (non-fatal), and
the device handle is closed afterwards. -/
theorem disarm_write_once (wd : wdinfo) (env : DevEnv)
    (hopen : env.openResult = OpenResult.opened)
    (hterm : ∃ o ∈ env.writeOutcomes, o ≠ WriteOutcome.eintr) :
    (read_watchdog wd env).writes =
        env.writeOutcomes.takeWhile (fun o => o == WriteOutcome.eintr) ++
          [(env.writeOutcomes.dropWhile (fun o => o == WriteOutcome.eintr)).headD
              WriteOutcome.success] ∧
    (∀ o ∈ env.writeOutcomes.takeWhile (fun o => o == WriteOutcome.eintr),
        o = WriteOutcome.eintr) ∧
    (read_watchdog wd env).disarmWarning =
        ((env.writeOutcomes.dropWhile (fun o => o == WriteOutcome.eintr)).headD
            WriteOutcome.success == WriteOutcome.failed) ∧
    (read_watchdog wd env).result.isSome = true ∧
    (read_watchdog wd env).fatalMsg = none ∧
    (read_watchdog wd env).closed = true ∧
    (read_watchdog wd env).syscalls.getLast? = some Syscall.closeCall := by
  have hd := disarm_loop_spec env.writeOutcomes hterm
  refine ⟨?_, ?_, ?_, ?_, ?_, ?_, ?_⟩
  · simp [read_watchdog, hopen, hd]
  · intro o ho
    have := List.mem_takeWhile_imp ho
    exact eq_of_beq this
  · simp [read_watchdog, hopen, hd]
  · simp [read_watchdog, hopen, hd]
  · simp [read_watchdog, hopen]
  · simp [read_watchdog, hopen, hd]
  · simp [read_watchdog, hopen, hd]
    exact getLast?_two_tail _ _ _ _ _

/-- C1 witness: a concrete session whose capability query failed and whose
disarm write is interrupted once and then fails for another reason: two
write attempts, a warning, a normal return and a final close. -/
theorem disarm_write_once_witness :
    (read_watchdog (wdinfo_init "/dev/watchdog")
        ⟨OpenResult.opened, none, none, none, none, none, none,
          [WriteOutcome.eintr, WriteOutcome.failed]⟩).writes =
        [WriteOutcome.eintr, WriteOutcome.failed] ∧
    (read_watchdog (wdinfo_init "/dev/watchdog")
        ⟨OpenResult.opened, none, none, none, none, none, none,
          [WriteOutcome.eintr, WriteOutcome.failed]⟩).disarmWarning = true ∧
    (read_watchdog (wdinfo_init "/dev/watchdog")
        ⟨OpenResult.opened, none, none, none, none, none, none,
          [WriteOutcome.eintr, WriteOutcome.failed]⟩).closed = true := by
  have h := disarm_write_once (wdinfo_init "/dev/watchdog")
    ⟨OpenResult.opened, none, none, none, none, none, none,
      [WriteOutcome.eintr, WriteOutcome.failed]⟩
    rfl ⟨WriteOutcome.failed, by decide, by decide⟩
  refine ⟨?_, ?_, h.2.2.2.2.2.1⟩
  · rw [h.1]; rfl
  · rw [h.2.2.1]; rfl

/-- C4: an `EBUSY` open failure terminates the process with a distinct busy
message naming the device; any other open failure terminates with the
generic message naming the device; in both cases the only system call issued
is the open itself — no ioctl queries and no disarm writes — and the exit
code is non-zero. -/
theorem open_failure_fatal (wd : wdinfo) (env : DevEnv) :
    (env.openResult = OpenResult.ebusy →
      read_watchdog wd env =
        ⟨none, some (busy_message wd.device), [Syscall.openCall], [], [], false, false⟩) ∧
    (env.openResult = OpenResult.failed →
      read_watchdog wd env =
        ⟨none, some (open_fail_message wd.device), [Syscall.openCall], [], [], false, false⟩) ∧
    busy_message wd.device ≠ open_fail_message wd.device ∧
    exit_code (MainOutcome.fatal (busy_message wd.device)) = some 1 ∧
    exit_code (MainOutcome.fatal (open_fail_message wd.device)) = some 1 := by
  refine ⟨?_, ?_, busy_ne_openfail wd.device, rfl, rfl⟩
  · intro h; simp [read_watchdog, h]
  · intro h; simp [read_watchdog, h]

/-- C4 witness: the two open failure modes at a concrete device path. -/
theorem open_failure_fatal_witness :
    read_watchdog (wdinfo_init "/dev/watchdog")
        ⟨OpenResult.ebusy, none, none, none, none, none, none, []⟩ =
      ⟨none, some (busy_message "/dev/watchdog"), [Syscall.openCall], [], [], false, false⟩ ∧
    read_watchdog (wdinfo_init "/dev/watchdog")
        ⟨OpenResult.failed, none, none, none, none, none, none, []⟩ =
      ⟨none, some (open_fail_message "/dev/watchdog"), [Syscall.openCall], [], [], false, false⟩ ∧
    busy_message "/dev/watchdog" ≠ open_fail_message "/dev/watchdog" := by
  refine ⟨?_, ?_, ?_⟩
  · exact (open_failure_fatal (wdinfo_init "/dev/watchdog")
      ⟨OpenResult.ebusy, none, none, none, none, none, none, []⟩).1 rfl
  · exact (open_failure_fatal (wdinfo_init "/dev/watchdog")
      ⟨OpenResult.failed, none, none, none, none, none, none, []⟩).2.1 rfl
  · exact (open_failure_fatal (wdinfo_init "/dev/watchdog")
      ⟨OpenResult.ebusy, none, none, none, none, none, none, []⟩).2.2.1

/-- C5: after a successful capability query the three timing queries are
independently optional — each presence bit equals exactly its own query's
success, whatever the other two did — the value is tracked separately from
the presence bit, and `show_timeouts` prints one line per present value: a
failed query's line is omitted entirely, not shown as zero. -/
theorem timing_queries_independent (d : String) (env : DevEnv) (ident : watchdog_info)
    (hopen : env.openResult = OpenResult.opened)
    (hsup : env.getsupport = some ident)
    (hterm : ∃ o ∈ env.writeOutcomes, o ≠ WriteOutcome.eintr) :
    ∃ wd, (read_watchdog (wdinfo_init d) env).result = some wd ∧
      wd.has_timeout = env.gettimeout.isSome ∧
      wd.has_pretimeout = env.getpretimeout.isSome ∧
      wd.has_timeleft = env.gettimeleft.isSome ∧
      wd.timeout = env.gettimeout.getD 0 ∧
      wd.pretimeout = env.getpretimeout.getD 0 ∧
      wd.timeleft = env.gettimeleft.getD 0 ∧
      show_timeouts wd =
        (match env.gettimeout with
          | some v => [timeout_line "Timeout:" v]
          | none => []) ++
        (match env.getpretimeout with
          | some v => [timeout_line "Pre-timeout:" v]
          | none => []) ++
        (match env.gettimeleft with
          | some v => [timeout_line "Timeleft:" v]
          | none => []) := by
  have hd := disarm_loop_spec env.writeOutcomes hterm
  refine ⟨(query_phase (wdinfo_init d) env).wd, ?_, ?_, ?_, ?_, ?_, ?_, ?_, ?_⟩
  · simp [read_watchdog, hopen, hd]
  · simp [query_phase, hsup, wdinfo_init]
  · simp [query_phase, hsup, wdinfo_init]
  · simp [query_phase, hsup, wdinfo_init]
  · simp [query_phase, hsup, wdinfo_init]
  · simp [query_phase, hsup, wdinfo_init]
  · simp [query_phase, hsup, wdinfo_init]
  · rcases ht : env.gettimeout with _ | v1 <;>
      rcases hp : env.getpretimeout with _ | v2 <;>
      rcases hl : env.gettimeleft with _ | v3 <;>
      simp [show_timeouts, query_phase, hsup, wdinfo_init, ht, hp, hl]

/-- C5 witness: only the pretimeout query fails; the timeout and timeleft
lines are printed and the pretimeout line is omitted. -/
theorem timing_queries_independent_witness :
    ∃ wd, (read_watchdog (wdinfo_init "/dev/watchdog")
        ⟨OpenResult.opened, some ⟨0, 0, "WD"⟩, none, none, some 30, none, some 27,
          [WriteOutcome.success]⟩).result = some wd ∧
      wd.has_timeout = true ∧ wd.has_pretimeout = false ∧ wd.has_timeleft = true ∧
      show_timeouts wd = [timeout_line "Timeout:" 30, timeout_line "Timeleft:" 27] := by
  have h := timing_queries_independent "/dev/watchdog"
    ⟨OpenResult.opened, some ⟨0, 0, "WD"⟩, none, none, some 30, none, some 27,
      [WriteOutcome.success]⟩
    ⟨0, 0, "WD"⟩ rfl rfl ⟨WriteOutcome.success, by decide, by decide⟩
  rcases h with ⟨wd, hres, h1, h2, h3, _, _, _, hshow⟩
  exact ⟨wd, hres, h1, h2, h3, hshow⟩

/-! ## Lemmas about `main` -/

/-- The query phase never changes the device path. -/
lemma query_phase_device (wd : wdinfo) (env : DevEnv) :
    (query_phase wd env).wd.device = wd.device := by
  cases h : env.getsupport <;> simp [query_phase, h]

/-- After a successful capability query, the record carries the queried
identity. -/
lemma query_phase_ident (wd : wdinfo) (env : DevEnv) (ident : watchdog_info)
    (hsup : env.getsupport = some ident) :
    (query_phase wd env).wd.ident = ident := by
  simp [query_phase, hsup]

/-- When parsing succeeds, no conflicting options are given, no positional
arguments are present, the open succeeds and the disarm loop terminates,
`main` reaches the printing phase with the session's record. -/
lemma main_run_finished (args : Args) (env : DevEnv) (cols0 : List Nat) (wanted : Nat)
    (ho : parse_output args.outputArg = some cols0)
    (hf : parse_flags args.flagsArg = some wanted)
    (hx : ¬(wanted ≠ 0 ∧ args.noflags = true))
    (hp : args.positionals = false)
    (hopen : env.openResult = OpenResult.opened)
    (hterm : ∃ o ∈ env.writeOutcomes, o ≠ WriteOutcome.eintr) :
    main_run args env =
      ⟨MainOutcome.finished
        (render_output args (query_phase (wdinfo_init args.device) env).wd
          (effective_cols cols0) wanted)
        (((query_phase (wdinfo_init args.device) env).warnings ++
            (if (disarm_loop env.writeOutcomes).warned then
              [disarm_fail_message args.device]
            else [])) ++
          (if !args.noflags then
            (show_flags (query_phase (wdinfo_init args.device) env).wd
              (effective_cols cols0) wanted).2.toList
          else [])),
       true⟩ := by
  have hd := disarm_loop_spec env.writeOutcomes hterm
  simp [main_run, ho, hf, hx, hp, read_watchdog, hopen, hd, wdinfo_init]

/-- The blank separator appears in the rendered output exactly when the flag
table is not suppressed and identity and timeouts are not both suppressed. -/
lemma blank_mem_render (args : Args) (wd : wdinfo) (cols : List Nat) (wanted : Nat) :
    (OutItem.blankLine ∈ render_output args wd cols wanted ↔
      (args.noflags = false ∧ (args.noident = false ∨ args.notimeouts = false))) := by
  cases hF : args.noflags <;> cases hI : args.noident <;> cases hT : args.notimeouts <;>
    simp [render_output, hF, hI, hT]

/-- C3: supplying both a flag filter (`-f` parsed to a non-zero mask) and
`--noflags` is rejected as a usage error with non-zero exit, before the
device open is ever attempted. -/
theorem flags_noflags_mutually_exclusive (args : Args) (env : DevEnv)
    (ns : List String) (w : Nat)
    (ho : (parse_output args.outputArg).isSome)
    (hf : args.flagsArg = some ns)
    (hw : string_to_bitmask ns = some w)
    (hw0 : w ≠ 0)
    (hF : args.noflags = true) :
    main_run args env =
      ⟨MainOutcome.usageError "--flags and --noflags are mutually exclusive", false⟩ ∧
    exit_code (main_run args env).outcome = some 1 := by
  obtain ⟨cols0, hc⟩ := Option.isSome_iff_exists.mp ho
  have hpf : parse_flags args.flagsArg = some w := by simp [parse_flags, hf, hw]
  have hmain : main_run args env =
      ⟨MainOutcome.usageError "--flags and --noflags are mutually exclusive", false⟩ := by
    simp [main_run, hc, hpf, hw0, hF]
  refine ⟨hmain, ?_⟩
  rw [hmain]
  rfl

/-- C3 witness: `-f PRETIMEOUT -F` at a concrete device is a usage error and
the device open is never reached. -/
theorem flags_noflags_mutually_exclusive_witness :
    main_run ⟨"/dev/watchdog", some ["PRETIMEOUT"], none, true, false, false, false⟩
        ⟨OpenResult.opened, some ⟨0, 0, "WD"⟩, none, none, none, none, none,
          [WriteOutcome.success]⟩ =
      ⟨MainOutcome.usageError "--flags and --noflags are mutually exclusive", false⟩ := by
  exact (flags_noflags_mutually_exclusive
    ⟨"/dev/watchdog", some ["PRETIMEOUT"], none, true, false, false, false⟩
    ⟨OpenResult.opened, some ⟨0, 0, "WD"⟩, none, none, none, none, none,
      [WriteOutcome.success]⟩
    ["PRETIMEOUT"] WDIOF_PRETIMEOUT rfl rfl (by decide) (by decide) rfl).1

/-- C6: when the flag table is rendered and the supported-options bitmask has
bits outside all 11 known flags, a warning naming the device and the residual
bitmask (in hex) is emitted, and the exit code remains success. -/
theorem residual_warning_nonfatal (args : Args) (env : DevEnv) (cols0 : List Nat)
    (wanted : Nat) (ident : watchdog_info)
    (ho : parse_output args.outputArg = some cols0)
    (hf : parse_flags args.flagsArg = some wanted)
    (hF : args.noflags = false)
    (hp : args.positionals = false)
    (hopen : env.openResult = OpenResult.opened)
    (hsup : env.getsupport = some ident)
    (hterm : ∃ o ∈ env.writeOutcomes, o ≠ WriteOutcome.eintr)
    (hres : ident.options &&& u32compl knownFlagsMask ≠ 0) :
    ∃ out warns, main_run args env = ⟨MainOutcome.finished out warns, true⟩ ∧
      unknown_flags_warning args.device (ident.options &&& u32compl knownFlagsMask) ∈ warns ∧
      exit_code (main_run args env).outcome = some 0 := by
  have hx : ¬(wanted ≠ 0 ∧ args.noflags = true) := by simp [hF]
  have hm := main_run_finished args env cols0 wanted ho hf hx hp hopen hterm
  refine ⟨_, _, hm, ?_, by rw [hm]; rfl⟩
  have hid := query_phase_ident (wdinfo_init args.device) env ident hsup
  have hdev : (query_phase (wdinfo_init args.device) env).wd.device = args.device :=
    query_phase_device (wdinfo_init args.device) env
  have hsf := show_flags_snd (query_phase (wdinfo_init args.device) env).wd
    (effective_cols cols0) wanted
  rw [hid, hdev] at hsf
  rw [if_pos hres] at hsf
  apply List.mem_append_right
  simp [hF, hsf]

/-- C6 witness: a device whose supported-options bitmask has the unknown bit
`0x10000` set; the run finishes successfully and the warning names the device
and the residual `0x10000`. -/
theorem residual_warning_nonfatal_witness :
    ∃ out warns,
      main_run ⟨"/dev/watchdog", none, none, false, false, false, false⟩
          ⟨OpenResult.opened, some ⟨0x10000, 0, "WD"⟩, none, none, none, none, none,
            [WriteOutcome.success]⟩ =
        ⟨MainOutcome.finished out warns, true⟩ ∧
      unknown_flags_warning "/dev/watchdog" (0x10000 &&& u32compl knownFlagsMask) ∈ warns ∧
      exit_code (main_run ⟨"/dev/watchdog", none, none, false, false, false, false⟩
          ⟨OpenResult.opened, some ⟨0x10000, 0, "WD"⟩, none, none, none, none, none,
            [WriteOutcome.success]⟩).outcome = some 0 := by
  exact residual_warning_nonfatal
    ⟨"/dev/watchdog", none, none, false, false, false, false⟩
    ⟨OpenResult.opened, some ⟨0x10000, 0, "WD"⟩, none, none, none, none, none,
      [WriteOutcome.success]⟩
    [] 0 ⟨0x10000, 0, "WD"⟩ rfl rfl rfl rfl rfl rfl
    ⟨WriteOutcome.success, by decide, by decide⟩ (by decide)

/-- Is an output item part of the upper (identity/timeout) section? -/
def isUpperItem : OutItem → Bool
  | OutItem.identLine _ => true
  | OutItem.timeoutLine _ => true
  | _ => false

/-- C7 counterexample: with `--noident` given, timeouts enabled but none
supported by the driver, the upper section prints no line at all, yet the
blank separator is still printed (the code tests the suppression switches,
not whether any upper line was actually printed).  This refutes the claim
that the blank line appears only when an upper section is actually
printed. -/
theorem blank_line_counterexample :
    main_run ⟨"/dev/watchdog", none, none, false, true, false, false⟩
        ⟨OpenResult.opened, some ⟨0, 0, "WD"⟩, none, none, none, none, none,
          [WriteOutcome.success]⟩ =
      ⟨MainOutcome.finished [OutItem.blankLine, OutItem.flagTable []] [], true⟩ ∧
    OutItem.blankLine ∈ [OutItem.blankLine, OutItem.flagTable ([] : List (List String))] ∧
    ([OutItem.blankLine, OutItem.flagTable ([] : List (List String))].all
      (fun i => !isUpperItem i)) = true := by
  refine ⟨by decide, by decide, by decide⟩

/-- C7 amended: the blank separator line is printed if and only if the flag
table section is enabled (`-F` absent) and the identity and timeout sections
are not both suppressed — regardless of whether the upper section actually
prints any line. -/
theorem blank_line_rule (args : Args) (env : DevEnv) (cols0 : List Nat) (wanted : Nat)
    (ho : parse_output args.outputArg = some cols0)
    (hf : parse_flags args.flagsArg = some wanted)
    (hx : ¬(wanted ≠ 0 ∧ args.noflags = true))
    (hp : args.positionals = false)
    (hopen : env.openResult = OpenResult.opened)
    (hterm : ∃ o ∈ env.writeOutcomes, o ≠ WriteOutcome.eintr) :
    ∃ out warns, main_run args env = ⟨MainOutcome.finished out warns, true⟩ ∧
      (OutItem.blankLine ∈ out ↔
        (args.noflags = false ∧ (args.noident = false ∨ args.notimeouts = false))) := by
  have hm := main_run_finished args env cols0 wanted ho hf hx hp hopen hterm
  exact ⟨_, _, hm, blank_mem_render args _ _ _⟩

/-- C7 amended witness: the counterexample configuration (`--noident`, no
timeout support) still prints the blank line, as the amended rule demands. -/
theorem blank_line_rule_witness :
    ∃ out warns,
      main_run ⟨"/dev/watchdog", none, none, false, true, false, false⟩
          ⟨OpenResult.opened, some ⟨0, 0, "WD"⟩, none, none, none, none, none,
            [WriteOutcome.success]⟩ =
        ⟨MainOutcome.finished out warns, true⟩ ∧
      (OutItem.blankLine ∈ out ↔
        ((false : Bool) = false ∧ ((true : Bool) = false ∨ (false : Bool) = false))) := by
  exact blank_line_rule
    ⟨"/dev/watchdog", none, none, false, true, false, false⟩
    ⟨OpenResult.opened, some ⟨0, 0, "WD"⟩, none, none, none, none, none,
      [WriteOutcome.success]⟩
    [] 0 rfl rfl (by simp) rfl rfl ⟨WriteOutcome.success, by decide, by decide⟩

/-! ## Column-list parsing (C8) and identity line (C9) -/

/-- `column2id` only ever produces a valid column index. -/
lemma column2id_lt (n : String) (c : Nat) (h : column2id n = some c) : c < NCOLS := by
  simp only [column2id] at h
  split at h
  · injection h with h2
    omega
  · exact absurd h (by simp)

/-- The id-array accumulator: on success, the result extends the accumulator
with exactly the ids of the parsed names, in order, and duplicates would have
been rejected. -/
lemma string_to_idarray_go_spec (arysz : Nat) :
    ∀ (ns : List String) (acc res : List Nat),
      string_to_idarray_go arysz ns acc = some res →
      ∃ ids, List.Forall₂ (fun n c => column2id n = some c) ns ids ∧
        res = acc ++ ids ∧ (acc.Nodup → res.Nodup) := by
  intro ns
  induction ns with
  | nil =>
    intro acc res h
    simp only [string_to_idarray_go, Option.some.injEq] at h
    exact ⟨[], List.Forall₂.nil, by simp [h.symm], fun hn => h ▸ hn⟩
  | cons n rest ih =>
    intro acc res h
    simp only [string_to_idarray_go] at h
    cases hc : column2id n with
    | none => rw [hc] at h; exact absurd h (by simp)
    | some id =>
      rw [hc] at h
      dsimp only at h
      by_cases hmem : id ∈ acc ∨ arysz ≤ acc.length
      · rw [if_pos hmem] at h; exact absurd h (by simp)
      · rw [if_neg hmem] at h
        obtain ⟨ids, hfa, hres, hnd⟩ := ih (acc ++ [id]) res h
        refine ⟨id :: ids, List.Forall₂.cons hc hfa, by simp [hres], ?_⟩
        intro hacc
        apply hnd
        have hni : id ∉ acc := fun hi => hmem (Or.inl hi)
        simp [List.nodup_append, hacc, hni]

/-- Every right element of a `Forall₂` relation has a related left element. -/
lemma forall2_right_mem {r : String → Nat → Prop} :
    ∀ {ns : List String} {cs : List Nat}, List.Forall₂ r ns cs →
      ∀ c ∈ cs, ∃ n, r n c := by
  intro ns cs h
  induction h with
  | nil => intro c hc; simp at hc
  | cons hr _ ih =>
    intro c hc
    rcases List.mem_cons.mp hc with h1 | h1
    · exact ⟨_, h1 ▸ hr⟩
    · exact ih c h1

/-- C8: a `-o` list with an unknown column name or a duplicated column is
rejected at parse time, before any device I/O, with non-zero exit; on
success the selected columns are a non-empty ordered subset of the 4 known
columns, each appearing at most once (duplicates rejected, not deduplicated:
the parsed ids are in the given order and contain no repeats). -/
theorem output_columns_parse (args : Args) (env : DevEnv) (ns : List String) :
    (args.outputArg = some ns → string_to_idarray ns NCOLS = none →
      main_run args env = ⟨MainOutcome.parseFailure, false⟩ ∧
      exit_code (main_run args env).outcome = some 1) ∧
    (∀ cols, string_to_idarray ns NCOLS = some cols →
      cols ≠ [] ∧ cols.Nodup ∧ (∀ c ∈ cols, c < NCOLS) ∧
      List.Forall₂ (fun n c => column2id n = some c) ns cols) := by
  constructor
  · intro h1 h2
    have hmain : main_run args env = ⟨MainOutcome.parseFailure, false⟩ := by
      simp [main_run, parse_output, h1, h2]
    exact ⟨hmain, by rw [hmain]; rfl⟩
  · intro cols h
    simp only [string_to_idarray] at h
    split at h
    · exact absurd h (by simp)
    · rename_i hne
      obtain ⟨ids, hfa, hres, hnd⟩ := string_to_idarray_go_spec NCOLS ns [] cols h
      have hcols : cols = ids := by simpa using hres
      refine ⟨?_, hnd List.nodup_nil, ?_, hcols ▸ hfa⟩
      · intro hnil
        have hlen := List.Forall₂.length_eq hfa
        rw [← hcols, hnil] at hlen
        simp at hlen
        exact hne (by simp [List.isEmpty_iff, hlen])
      · intro c hc
        obtain ⟨n, hn⟩ := forall2_right_mem (hcols ▸ hfa) c hc
        exact column2id_lt n c hn

/-- C8 witness: the duplicated list `FLAG,flag` (same column, case folded) is
rejected before the device is opened, and the valid list `STATUS,FLAG` parses
to the ordered, duplicate-free id list `[2, 0]`. -/
theorem output_columns_parse_witness :
    (main_run ⟨"/dev/watchdog", none, some ["FLAG", "flag"], false, false, false, false⟩
        ⟨OpenResult.opened, some ⟨0, 0, "WD"⟩, none, none, none, none, none,
          [WriteOutcome.success]⟩ =
      ⟨MainOutcome.parseFailure, false⟩) ∧
    (([2, 0] : List Nat) ≠ [] ∧ ([2, 0] : List Nat).Nodup ∧
      (∀ c ∈ ([2, 0] : List Nat), c < NCOLS) ∧
      List.Forall₂ (fun n c => column2id n = some c) ["STATUS", "FLAG"] [2, 0]) := by
  constructor
  · exact ((output_columns_parse
      ⟨"/dev/watchdog", none, some ["FLAG", "flag"], false, false, false, false⟩
      ⟨OpenResult.opened, some ⟨0, 0, "WD"⟩, none, none, none, none, none,
        [WriteOutcome.success]⟩
      ["FLAG", "flag"]).1 rfl (by decide)).1
  · exact (output_columns_parse
      ⟨"/dev/watchdog", none, some ["FLAG", "flag"], false, false, false, false⟩
      ⟨OpenResult.opened, some ⟨0, 0, "WD"⟩, none, none, none, none, none,
        [WriteOutcome.success]⟩
      ["STATUS", "FLAG"]).2 [2, 0] (by decide)

/-- C9 counterexample: the identity line renders the firmware version with
printf `%x`, which writes bare hex with no `0x` prefix: for firmware version
`0x12` the line reads `[version 12]` and the string `0x12` occurs nowhere in
it, contradicting the claim that the version is shown as `0x12`. -/
theorem identity_version_counterexample :
    identity_line "WD1" 0x12 = "Identity:      WD1 [version 12]\n" ∧
    strContains (identity_line "WD1" 0x12) "0x12" = false ∧
    strContains (identity_line "WD1" 0x12) "12" = true := by
  refine ⟨by decide, by decide, by decide⟩

/-- C9 amended: when the identity line is not suppressed, it is printed with
the firmware version hex-formatted WITHOUT a `0x` prefix; in particular a
firmware version of `0x12` renders as `12`. -/
theorem identity_line_hex (args : Args) (env : DevEnv) (cols0 : List Nat)
    (wanted : Nat) (ident : watchdog_info)
    (ho : parse_output args.outputArg = some cols0)
    (hf : parse_flags args.flagsArg = some wanted)
    (hx : ¬(wanted ≠ 0 ∧ args.noflags = true))
    (hp : args.positionals = false)
    (hI : args.noident = false)
    (hopen : env.openResult = OpenResult.opened)
    (hsup : env.getsupport = some ident)
    (hterm : ∃ o ∈ env.writeOutcomes, o ≠ WriteOutcome.eintr) :
    ∃ out warns, main_run args env = ⟨MainOutcome.finished out warns, true⟩ ∧
      OutItem.identLine (identity_line ident.identity ident.firmware_version) ∈ out ∧
      hexStr 0x12 = "12" := by
  have hm := main_run_finished args env cols0 wanted ho hf hx hp hopen hterm
  refine ⟨_, _, hm, ?_, by decide⟩
  have hid := query_phase_ident (wdinfo_init args.device) env ident hsup
  simp [render_output, hI, hid]

/-- C9 amended witness: a device reporting identity `WD1` and firmware
version `0x12`; the identity line appears in the output with the bare-hex
version text. -/
theorem identity_line_hex_witness :
    ∃ out warns,
      main_run ⟨"/dev/watchdog", none, none, false, false, false, false⟩
          ⟨OpenResult.opened, some ⟨0, 0x12, "WD1"⟩, none, none, none, none, none,
            [WriteOutcome.success]⟩ =
        ⟨MainOutcome.finished out warns, true⟩ ∧
      OutItem.identLine (identity_line "WD1" 0x12) ∈ out ∧
      hexStr 0x12 = "12" := by
  exact identity_line_hex
    ⟨"/dev/watchdog", none, none, false, false, false, false⟩
    ⟨OpenResult.opened, some ⟨0, 0x12, "WD1"⟩, none, none, none, none, none,
      [WriteOutcome.success]⟩
    [] 0 ⟨0, 0x12, "WD1"⟩ rfl rfl (by simp) rfl rfl rfl rfl
    ⟨WriteOutcome.success, by decide, by decide⟩

end Wdctl
